import Mathlib

/-!
Verification development for the `blogs-db` shared database library.

The library exposes two client singletons (a Prisma/PostgreSQL client and a
Mongoose/MongoDB connection manager), Mongoose schema declarations with TTL
indexes, and a Prisma migration declaring the relational tables, unique
indexes and foreign-key cascade rules.  The definitions below are a shallow
embedding of that code: module-level mutable state becomes explicit state
records, fallible calls return `Except`, and process-level side effects
(signal-handler registration, closing a connection, exiting the process)
are recorded in counters and effect lists.
-/

namespace BlogsDb

/-- A process environment: maps a variable name to its value, if set. -/
def Env : Type := String → Option String

/-! ## Prisma client singleton (src/prisma/client.ts) -/

/-- The module-level state of `src/prisma/client.ts`.

* `prisma` is the module variable `let prisma: PrismaClient | null = null`,
  with a live client handle represented by the `Nat` identifying which
  construction produced it;
* `nextHandle` numbers client constructions so that distinct constructions
  yield distinct (non-reference-identical) handles;
* `handlerSets` counts how many `beforeExit`/`SIGINT`/`SIGTERM` cleanup
  handler triples have been registered via `process.on` (the code registers
  one triple per client construction and never removes one). -/
structure PrismaState where
  prisma : Option Nat
  nextHandle : Nat
  handlerSets : Nat
deriving Repr, DecidableEq

/-- The state at module load: no client, no handlers. -/
def PrismaState.init : PrismaState := ⟨none, 0, 0⟩

/-- The descriptive error produced when the relational connection string is
absent from the environment. -/
def prismaMissingEnvError : String :=
  "Environment variable not found: DATABASE_URL"

/-- Modelled from the spec: the `PrismaClient` constructor invoked by
`getPrismaClient` lives in the external `@prisma/client` package, not in this
repository.  Per the spec, constructing the client reads the relational
connection string from the process environment and "fails fast (throws) if
the connection string is absent — this is a fatal configuration error, not
retried"; otherwise it yields a fresh pooled-connection handle. -/
def constructPrismaClient (env : Env) (handle : Nat) : Except String Nat :=
  match env "DATABASE_URL" with
  | none => .error prismaMissingEnvError
  | some _ => .ok handle

/-- `getPrismaClient()`: returns the cached handle if present; otherwise
constructs a new client (which may throw), caches it, and registers one
`beforeExit`/`SIGINT`/`SIGTERM` cleanup handler triple.  In the source the
assignment `prisma = new PrismaClient(...)` evaluates its right-hand side
first, so a throwing constructor leaves the module state untouched. -/
def getPrismaClient (env : Env) (s : PrismaState) :
    Except String Nat × PrismaState :=
  match s.prisma with
  | some h => (.ok h, s)
  | none =>
    match constructPrismaClient env s.nextHandle with
    | .error e => (.error e, s)
    | .ok h =>
      (.ok h,
        { prisma := some h
          nextHandle := s.nextHandle + 1
          handlerSets := s.handlerSets + 1 })

/-- `disconnectPrisma()`: if a client is cached, disconnect it and clear the
cache; otherwise do nothing.  Registered handlers are never removed. -/
def disconnectPrisma (s : PrismaState) : PrismaState :=
  match s.prisma with
  | some _ => { s with prisma := none }
  | none => s

/-- A sequence of `n` further `getPrismaClient()` calls from state `s`,
collecting each call's result and threading the state. -/
def getPrismaClientCalls (env : Env) (s : PrismaState) :
    Nat → List (Except String Nat) × PrismaState
  | 0 => ([], s)
  | n + 1 =>
    let r := getPrismaClient env s
    let rest := getPrismaClientCalls env r.2 n
    (r.1 :: rest.1, rest.2)

/-- One disconnect-then-reacquire cycle on the Prisma state, iterated
`n` times: `disconnectPrisma()` followed by `getPrismaClient()`. -/
def prismaCycles (env : Env) (s : PrismaState) : Nat → PrismaState
  | 0 => s
  | n + 1 => prismaCycles env (getPrismaClient env (disconnectPrisma s)).2 n

/-! ## MongoDB connection manager (src/mongodb/client.ts) -/

/-- Observable process-level effects of the Mongo cleanup handler. -/
inductive ProcEffect where
  | closeConnection
  | processExit
deriving Repr, DecidableEq

/-- The module-level state of `src/mongodb/client.ts`.

* `isConnected` is the module variable `let isConnected = false`;
* `connectionsOpened` counts calls to `mongoose.connect`;
* `errorListeners` / `disconnectedListeners` count listeners registered on
  `mongoose.connection` for the `error` / `disconnected` events;
* `sigintHooks` / `sigtermHooks` count cleanup handlers registered via
  `process.on('SIGINT', ...)` / `process.on('SIGTERM', ...)`.
No code path removes a listener or handler. -/
structure MongoState where
  isConnected : Bool
  connectionsOpened : Nat
  errorListeners : Nat
  disconnectedListeners : Nat
  sigintHooks : Nat
  sigtermHooks : Nat
deriving Repr, DecidableEq

/-- The state at module load: not connected, nothing registered. -/
def MongoState.init : MongoState := ⟨false, 0, 0, 0, 0, 0⟩

/-- The descriptive error thrown when `MONGODB_URI` is not set (verbatim
message from the source). -/
def mongoMissingEnvError : String :=
  "MONGODB_URI environment variable is not set"

/-- `connectMongoDB()`: no-op if already connected; throws before any
connection attempt if `MONGODB_URI` is absent; otherwise attempts the driver
connect (`driver` is the outcome of the external `mongoose.connect` call).
On driver success it sets the connected flag, registers `error` and
`disconnected` listeners and one `SIGINT`/`SIGTERM` cleanup pair; on driver
failure it logs and rethrows the driver's error, leaving the state
untouched. -/
def connectMongoDB (env : Env) (driver : Except String Unit) (s : MongoState) :
    Except String Unit × MongoState :=
  if s.isConnected then (.ok (), s)
  else
    match env "MONGODB_URI" with
    | none => (.error mongoMissingEnvError, s)
    | some _ =>
      match driver with
      | .error e => (.error e, s)
      | .ok _ =>
        (.ok (),
          { isConnected := true
            connectionsOpened := s.connectionsOpened + 1
            errorListeners := s.errorListeners + 1
            disconnectedListeners := s.disconnectedListeners + 1
            sigintHooks := s.sigintHooks + 1
            sigtermHooks := s.sigtermHooks + 1 })

/-- The `cleanup` closure registered on `SIGINT` and `SIGTERM` by
`connectMongoDB`: if connected, it closes the connection and clears the
flag.  Its body contains no `process.exit` call, so invoking it emits no
process-termination effect. -/
def mongoCleanup (s : MongoState) : MongoState × List ProcEffect :=
  if s.isConnected then
    ({ s with isConnected := false }, [ProcEffect.closeConnection])
  else (s, [])

/-- `disconnectMongoDB()`: closes the connection and clears the flag when
connected; otherwise does nothing. -/
def disconnectMongoDB (s : MongoState) : MongoState :=
  if s.isConnected then { s with isConnected := false } else s

/-- One disconnect-then-reconnect cycle on the Mongo state, iterated
`n` times: `disconnectMongoDB()` followed by a successful
`connectMongoDB()`. -/
def mongoCycles (env : Env) (s : MongoState) : Nat → MongoState
  | 0 => s
  | n + 1 => mongoCycles env (connectMongoDB env (.ok ()) (disconnectMongoDB s)).2 n

/-! ## Relational schema (prisma/migrations, migration.sql)

Tables are lists of typed rows; `TEXT` columns are `String`, nullable
columns are `Option`, `TIMESTAMP` columns are `Nat` (epoch seconds),
`INTEGER` is `Int`, and each `CREATE TYPE ... AS ENUM` is an inductive. -/

inductive UserRole where
  | READER | AUTHOR | EDITOR | ADMIN
deriving Repr, DecidableEq

inductive PostStatus where
  | DRAFT | PUBLISHED | ARCHIVED | DELETED
deriving Repr, DecidableEq

inductive PostVisibility where
  | PUBLIC | UNLISTED | PRIVATE
deriving Repr, DecidableEq

inductive CommentStatus where
  | PENDING | APPROVED | SPAM | DELETED
deriving Repr, DecidableEq

inductive MediaStatus where
  | PROCESSING | READY | FAILED
deriving Repr, DecidableEq

/-- A row of `users`. -/
structure User where
  id : String
  email : String
  username : String
  passwordHash : Option String
  role : UserRole
  isVerified : Bool
  createdAt : Nat
  updatedAt : Nat
deriving Repr, DecidableEq

/-- A row of `profiles`. -/
structure Profile where
  id : String
  userId : String
  firstName : Option String
  lastName : Option String
  displayName : Option String
  bio : Option String
  avatar : Option String
  website : Option String
  twitter : Option String
  linkedin : Option String
  github : Option String
  isAuthorVerified : Bool
  authorBadge : Option String
  createdAt : Nat
  updatedAt : Nat
deriving Repr, DecidableEq

/-- A row of `sessions`. -/
structure Session where
  id : String
  userId : String
  token : String
  expiresAt : Nat
  createdAt : Nat
deriving Repr, DecidableEq

/-- A row of `posts`. -/
structure Post where
  id : String
  authorId : String
  title : String
  slug : String
  excerpt : Option String
  content : String
  coverImage : Option String
  status : PostStatus
  visibility : PostVisibility
  metaTitle : Option String
  metaDescription : Option String
  keywords : List String
  viewCount : Int
  likeCount : Int
  commentCount : Int
  readTime : Option Int
  publishedAt : Option Nat
  scheduledAt : Option Nat
  createdAt : Nat
  updatedAt : Nat
deriving Repr, DecidableEq

/-- A row of `categories`. -/
structure Category where
  id : String
  name : String
  slug : String
  description : Option String
  icon : Option String
  color : Option String
  parentId : Option String
  createdAt : Nat
  updatedAt : Nat
deriving Repr, DecidableEq

/-- A row of `tags`. -/
structure Tag where
  id : String
  name : String
  slug : String
  createdAt : Nat
deriving Repr, DecidableEq

/-- A row of the `post_categories` junction table. -/
structure PostCategory where
  postId : String
  categoryId : String
deriving Repr, DecidableEq

/-- A row of the `post_tags` junction table. -/
structure PostTag where
  postId : String
  tagId : String
deriving Repr, DecidableEq

/-- A row of `comments`. -/
structure Comment where
  id : String
  postId : String
  authorId : String
  content : String
  parentId : Option String
  status : CommentStatus
  likeCount : Int
  createdAt : Nat
  updatedAt : Nat
deriving Repr, DecidableEq

/-- A row of `likes`. -/
structure Like where
  id : String
  userId : String
  postId : String
  createdAt : Nat
deriving Repr, DecidableEq

/-- A row of `bookmarks`. -/
structure Bookmark where
  id : String
  userId : String
  postId : String
  createdAt : Nat
deriving Repr, DecidableEq

/-- A row of `media`. -/
structure Media where
  id : String
  userId : String
  filename : String
  originalName : String
  mimeType : String
  size : Int
  storageProvider : String
  storageKey : String
  url : String
  width : Option Int
  height : Option Int
  duration : Option Int
  status : MediaStatus
  createdAt : Nat
  updatedAt : Nat
deriving Repr, DecidableEq

/-- A row of `media_variants`. -/
structure MediaVariant where
  id : String
  mediaId : String
  variant : String
  url : String
  width : Option Int
  height : Option Int
  size : Option Int
deriving Repr, DecidableEq

/-- The relational database: one list of rows per table of the migration. -/
structure DB where
  users : List User
  profiles : List Profile
  sessions : List Session
  posts : List Post
  categories : List Category
  tags : List Tag
  postCategories : List PostCategory
  postTags : List PostTag
  comments : List Comment
  likes : List Like
  bookmarks : List Bookmark
  media : List Media
  mediaVariants : List MediaVariant
deriving Repr, DecidableEq

/-! ### Inserts under the migration's primary-key and unique indexes

`users` carries `users_email_key` and `users_username_key`; `posts` carries
`posts_slug_key`; `likes` and `bookmarks` carry the composite
`likes_userId_postId_key` / `bookmarks_userId_postId_key`.  An insert that
violates the table's primary key or one of its unique indexes is rejected
(`none`); `likes.postId` / `bookmarks.postId` additionally reference
`posts.id`, so an insert naming a missing post is rejected too. -/

/-- Insert into `users`, rejecting duplicates of `id`, `email` or
`username`. -/
def insertUser (db : DB) (u : User) : Option DB :=
  if db.users.any (fun x => x.id == u.id || x.email == u.email ||
      x.username == u.username) then
    none
  else some { db with users := u :: db.users }

/-- Insert into `posts`, rejecting duplicates of `id` or `slug`. -/
def insertPost (db : DB) (p : Post) : Option DB :=
  if db.posts.any (fun q => q.id == p.id || q.slug == p.slug) then
    none
  else some { db with posts := p :: db.posts }

/-- Insert into `likes`, rejecting duplicates of `id` or of the
`(userId, postId)` pair, and rejecting a `postId` with no matching post. -/
def insertLike (db : DB) (l : Like) : Option DB :=
  if db.likes.any (fun x => x.id == l.id ||
      (x.userId == l.userId && x.postId == l.postId)) then
    none
  else if db.posts.any (fun q => q.id == l.postId) then
    some { db with likes := l :: db.likes }
  else none

/-- Insert into `bookmarks`, rejecting duplicates of `id` or of the
`(userId, postId)` pair, and rejecting a `postId` with no matching post. -/
def insertBookmark (db : DB) (b : Bookmark) : Option DB :=
  if db.bookmarks.any (fun x => x.id == b.id ||
      (x.userId == b.userId && x.postId == b.postId)) then
    none
  else if db.posts.any (fun q => q.id == b.postId) then
    some { db with bookmarks := b :: db.bookmarks }
  else none

/-! ### Deletes under the migration's foreign-key actions

Foreign keys referencing `posts.id` (`comments.postId`, `likes.postId`,
`bookmarks.postId`, `post_categories.postId`, `post_tags.postId`) are all
`ON DELETE CASCADE`; `comments.parentId` references `comments.id`
`ON DELETE SET NULL`.  The only foreign keys referencing `users.id` are
`profiles.userId` and `sessions.userId`, both `ON DELETE CASCADE`;
`posts.authorId`, `comments.authorId`, `likes.userId`, `bookmarks.userId`
and `media.userId` carry no foreign key at all. -/

/-- The `ON DELETE SET NULL` action of `comments_parentId_fkey`: a comment
whose `parentId` names a deleted comment has it set to null. -/
def adjustParent (removed : List String) (c : Comment) : Comment :=
  match c.parentId with
  | some pa => if removed.contains pa then { c with parentId := none } else c
  | none => c

/-- Delete the post with id `p`: the post row goes, every `comments`,
`likes`, `bookmarks`, `post_categories` and `post_tags` row referencing it
cascades away, and surviving comments whose `parentId` pointed at a deleted
comment have that `parentId` set to null. -/
def deletePost (db : DB) (p : String) : DB :=
  let removedComments := (db.comments.filter (fun c => c.postId == p)).map (fun c => c.id)
  { db with
    posts := db.posts.filter (fun q => q.id != p)
    comments :=
      (db.comments.filter (fun c => c.postId != p)).map (adjustParent removedComments)
    likes := db.likes.filter (fun l => l.postId != p)
    bookmarks := db.bookmarks.filter (fun b => b.postId != p)
    postCategories := db.postCategories.filter (fun j => j.postId != p)
    postTags := db.postTags.filter (fun j => j.postId != p) }

/-- Delete the user with id `u`: the user row goes and its `profiles` and
`sessions` rows cascade away; no other table references `users.id`, so all
other tables are untouched. -/
def deleteUser (db : DB) (u : String) : DB :=
  { db with
    users := db.users.filter (fun x => x.id != u)
    profiles := db.profiles.filter (fun pr => pr.userId != u)
    sessions := db.sessions.filter (fun se => se.userId != u) }

/-! ## Mongoose index declarations (schema files)

Each `Schema.index(keys, options)` call is recorded as an `IndexSpec`:
the key document as `(path, direction)` pairs and, when the options carry
`expireAfterSeconds`, that value. -/

/-- One Mongoose index declaration. -/
structure IndexSpec where
  keys : List (String × Int)
  expireAfterSeconds : Option Nat
deriving Repr, DecidableEq

/-- The `PageViewSchema.index(...)` calls of
`src/mongodb/schemas/analytics/page-view.schema`. -/
def pageViewSchemaIndexes : List IndexSpec :=
  [ ⟨[("postId", 1), ("timestamp", -1)], none⟩,
    ⟨[("userId", 1), ("timestamp", -1)], none⟩,
    ⟨[("device.type", 1)], none⟩,
    ⟨[("timestamp", 1)], some 7776000⟩ ]

/-- The `NotificationSchema.index(...)` calls of the notification schema. -/
def notificationSchemaIndexes : List IndexSpec :=
  [ ⟨[("userId", 1), ("createdAt", -1)], none⟩,
    ⟨[("userId", 1), ("channels.inApp.read", 1)], none⟩,
    ⟨[("priority", 1), ("createdAt", -1)], none⟩,
    ⟨[("expiresAt", 1)], some 0⟩ ]

/-- The `AuditLogSchema.index(...)` calls of the audit-log schema. -/
def auditLogSchemaIndexes : List IndexSpec :=
  [ ⟨[("userId", 1), ("timestamp", -1)], none⟩,
    ⟨[("resource", 1), ("resourceId", 1), ("timestamp", -1)], none⟩,
    ⟨[("action", 1), ("timestamp", -1)], none⟩,
    ⟨[("timestamp", 1)], some 63072000⟩ ]

/-- The TTL indexes among a schema's index declarations. -/
def ttlIndexes (l : List IndexSpec) : List IndexSpec :=
  l.filter (fun i => i.expireAfterSeconds.isSome)

/-- The store engine's TTL sweep, as the spec describes it: a document is
eligible for expiry at time `now` exactly when the indexed field is present
and its value plus `expireAfterSeconds` has passed; a document missing the
indexed field never expires. -/
def ttlExpired (i : IndexSpec) (fieldValue : Option Nat) (now : Nat) : Bool :=
  match i.expireAfterSeconds, fieldValue with
  | some e, some t => t + e ≤ now
  | _, _ => false

/-! ### Concrete environments and states used to instantiate theorems -/

/-- An environment with both connection variables set. -/
def envBoth : Env := fun _ => some "db://localhost"

/-- An environment with no variable set. -/
def envNone : Env := fun _ => none

/-- A Prisma state holding a cached client handle. -/
def prismaCached : PrismaState := ⟨some 0, 1, 1⟩

/-- A Mongo state after one successful connect. -/
def mongoConnected : MongoState := ⟨true, 1, 1, 1, 1, 1⟩

/-- An existing user row. -/
def userA : User := ⟨"u1", "a@x.com", "a", none, .READER, false, 0, 0⟩

/-- A second user reusing `userA`'s email. -/
def userDupEmail : User := ⟨"u2", "a@x.com", "b", none, .READER, false, 0, 0⟩

/-- A second user reusing `userA`'s username. -/
def userDupUsername : User := ⟨"u3", "c@x.com", "a", none, .READER, false, 0, 0⟩

/-- An existing post row authored by `userA`. -/
def postA : Post :=
  ⟨"p1", "u1", "Hello", "hello", none, "body", none, .DRAFT, .PUBLIC,
    none, none, [], 0, 0, 0, none, none, none, 0, 0⟩

/-- A second post reusing `postA`'s slug. -/
def postDupSlug : Post :=
  ⟨"p2", "u1", "Hello again", "hello", none, "body2", none, .DRAFT, .PUBLIC,
    none, none, [], 0, 0, 0, none, none, none, 0, 0⟩

/-- An existing like row on `(u1, p1)`. -/
def likeA : Like := ⟨"l1", "u1", "p1", 0⟩

/-- A second like reusing `likeA`'s `(userId, postId)` pair. -/
def likeDup : Like := ⟨"l2", "u1", "p1", 0⟩

/-- An existing bookmark row on `(u1, p1)`. -/
def bookmarkA : Bookmark := ⟨"b1", "u1", "p1", 0⟩

/-- A second bookmark reusing `bookmarkA`'s `(userId, postId)` pair. -/
def bookmarkDup : Bookmark := ⟨"b2", "u1", "p1", 0⟩

/-- A profile row owned by `userA`. -/
def profileA : Profile :=
  ⟨"pr1", "u1", none, none, none, none, none, none, none, none, none,
    false, none, 0, 0⟩

/-- A session row owned by `userA`. -/
def sessionA : Session := ⟨"s1", "u1", "tok", 9, 0⟩

/-- A comment row on `postA` by `userA`. -/
def commentA : Comment := ⟨"c1", "p1", "u1", "hi", none, .APPROVED, 0, 0, 0⟩

/-- A small populated database used to instantiate the relational
theorems. -/
def dbEx : DB :=
  ⟨[userA], [profileA], [sessionA], [postA], [], [],
    [⟨"p1", "cat1"⟩], [⟨"p1", "tag1"⟩], [commentA], [likeA], [bookmarkA],
    [], []⟩

/-! ## Helper lemmas -/

/-- With a cached handle, `getPrismaClient` returns it and changes
nothing. -/
lemma getPrismaClient_cached (env : Env) (s : PrismaState) (h : Nat)
    (hs : s.prisma = some h) : getPrismaClient env s = (.ok h, s) := by
  unfold getPrismaClient
  rw [hs]

/-- With no cached handle and no connection string, `getPrismaClient`
throws and changes nothing. -/
lemma getPrismaClient_noEnv (env : Env) (s : PrismaState)
    (hs : s.prisma = none) (hdb : env "DATABASE_URL" = none) :
    getPrismaClient env s = (.error prismaMissingEnvError, s) := by
  unfold getPrismaClient constructPrismaClient
  rw [hs, hdb]

/-- With no cached handle and the connection string set, `getPrismaClient`
constructs, caches and registers one handler set. -/
lemma getPrismaClient_fresh (env : Env) (s : PrismaState) (u : String)
    (hs : s.prisma = none) (hdb : env "DATABASE_URL" = some u) :
    getPrismaClient env s =
      (.ok s.nextHandle,
        ⟨some s.nextHandle, s.nextHandle + 1, s.handlerSets + 1⟩) := by
  unfold getPrismaClient constructPrismaClient
  rw [hs, hdb]

/-- A successful `getPrismaClient` call leaves its returned handle
cached. -/
lemma getPrismaClient_ok_cached (env : Env) (s s₁ : PrismaState) (h : Nat)
    (hc : getPrismaClient env s = (.ok h, s₁)) : s₁.prisma = some h := by
  cases hs : s.prisma with
  | some h' =>
    rw [getPrismaClient_cached env s h' hs] at hc
    obtain ⟨h1, h2⟩ := Prod.mk.injEq .. ▸ hc
    cases h1
    rw [← h2, hs]
  | none =>
    cases hdb : env "DATABASE_URL" with
    | none =>
      rw [getPrismaClient_noEnv env s hs hdb] at hc
      exact absurd (congrArg Prod.fst hc) (by simp)
    | some u =>
      rw [getPrismaClient_fresh env s u hs hdb] at hc
      obtain ⟨h1, h2⟩ := Prod.mk.injEq .. ▸ hc
      cases h1
      rw [← h2]

/-- `disconnectPrisma` always leaves the cache empty. -/
lemma disconnectPrisma_prisma (s : PrismaState) :
    (disconnectPrisma s).prisma = none := by
  unfold disconnectPrisma
  cases hs : s.prisma with
  | none => exact hs
  | some h => rfl

/-- `disconnectPrisma` is a no-op on an empty cache. -/
lemma disconnectPrisma_none (s : PrismaState) (hs : s.prisma = none) :
    disconnectPrisma s = s := by
  unfold disconnectPrisma
  rw [hs]

/-- `disconnectPrisma` never removes registered handlers. -/
lemma disconnectPrisma_handlerSets (s : PrismaState) :
    (disconnectPrisma s).handlerSets = s.handlerSets := by
  unfold disconnectPrisma
  cases hs : s.prisma <;> rfl

/-- `disconnectPrisma` preserves the construction counter. -/
lemma disconnectPrisma_nextHandle (s : PrismaState) :
    (disconnectPrisma s).nextHandle = s.nextHandle := by
  unfold disconnectPrisma
  cases hs : s.prisma <;> rfl

/-- When connected, `connectMongoDB` is a pure no-op. -/
lemma connectMongoDB_connected (env : Env) (driver : Except String Unit)
    (s : MongoState) (hs : s.isConnected = true) :
    connectMongoDB env driver s = (.ok (), s) := by
  unfold connectMongoDB
  rw [hs]
  simp

/-- When not connected and the URI is absent, `connectMongoDB` throws the
descriptive error and changes nothing. -/
lemma connectMongoDB_noEnv (env : Env) (driver : Except String Unit)
    (s : MongoState) (hs : s.isConnected = false)
    (hmg : env "MONGODB_URI" = none) :
    connectMongoDB env driver s = (.error mongoMissingEnvError, s) := by
  unfold connectMongoDB
  rw [hs, hmg]
  simp

/-- When not connected, the URI set and the driver succeeding,
`connectMongoDB` connects and registers one listener/handler set. -/
lemma connectMongoDB_fresh (env : Env) (s : MongoState) (v : String)
    (hs : s.isConnected = false) (hmg : env "MONGODB_URI" = some v) :
    connectMongoDB env (.ok ()) s =
      (.ok (),
        ⟨true, s.connectionsOpened + 1, s.errorListeners + 1,
          s.disconnectedListeners + 1, s.sigintHooks + 1,
          s.sigtermHooks + 1⟩) := by
  unfold connectMongoDB
  rw [hs, hmg]
  simp

/-- `disconnectMongoDB` always leaves the flag cleared. -/
lemma disconnectMongoDB_flag (s : MongoState) :
    (disconnectMongoDB s).isConnected = false := by
  cases hc : s.isConnected <;> simp [disconnectMongoDB, hc]

/-- `disconnectMongoDB` is a no-op when not connected. -/
lemma disconnectMongoDB_none (s : MongoState) (hs : s.isConnected = false) :
    disconnectMongoDB s = s := by
  unfold disconnectMongoDB
  rw [hs]
  simp

/-- `disconnectMongoDB` touches nothing but the flag. -/
lemma disconnectMongoDB_counters (s : MongoState) :
    (disconnectMongoDB s).connectionsOpened = s.connectionsOpened ∧
    (disconnectMongoDB s).errorListeners = s.errorListeners ∧
    (disconnectMongoDB s).disconnectedListeners = s.disconnectedListeners ∧
    (disconnectMongoDB s).sigintHooks = s.sigintHooks ∧
    (disconnectMongoDB s).sigtermHooks = s.sigtermHooks := by
  unfold disconnectMongoDB
  split <;> exact ⟨rfl, rfl, rfl, rfl, rfl⟩

/-! ## Claim theorems -/

/-- C1: if the relational connection string environment variable is absent,
the first call to `getPrismaClient()` (no cached client yet) throws a
descriptive error synchronously, and the module-level singleton variable is
left untouched — in particular no partially-initialized handle is cached. -/
theorem c1_prisma_missing_env_fails_fast (env : Env) (s : PrismaState)
    (hdb : env "DATABASE_URL" = none) (hs : s.prisma = none) :
    getPrismaClient env s = (.error prismaMissingEnvError, s) ∧
    (getPrismaClient env s).2.prisma = none ∧
    prismaMissingEnvError ≠ "" := by
  have h := getPrismaClient_noEnv env s hs hdb
  refine ⟨h, ?_, by decide⟩
  rw [h]
  exact hs

/-- Witness for C1 at the empty environment and the initial module state. -/
theorem c1_witness :
    getPrismaClient envNone PrismaState.init =
      (.error prismaMissingEnvError, PrismaState.init) ∧
    (getPrismaClient envNone PrismaState.init).2.prisma = none ∧
    prismaMissingEnvError ≠ "" :=
  c1_prisma_missing_env_fails_fast envNone PrismaState.init rfl rfl

/-- C2: once a call to `getPrismaClient()` has returned handle `h` leaving
state `s₁`, every further call (no intervening `disconnectPrisma()`) returns
exactly that handle and leaves the state untouched: a sequence of `n`
repeated calls yields `n` copies of `h`. -/
theorem c2_prisma_singleton (env : Env) (s s₁ : PrismaState) (h : Nat)
    (hfirst : getPrismaClient env s = (.ok h, s₁)) (n : Nat) :
    (getPrismaClientCalls env s₁ n).1 = List.replicate n (Except.ok h) ∧
    (getPrismaClientCalls env s₁ n).2 = s₁ := by
  have hp := getPrismaClient_ok_cached env s s₁ h hfirst
  induction n with
  | zero => exact ⟨rfl, rfl⟩
  | succ k ih =>
    have hc := getPrismaClient_cached env s₁ h hp
    unfold getPrismaClientCalls
    rw [hc]
    constructor
    · dsimp only
      rw [ih.1, List.replicate_succ]
    · dsimp only
      exact ih.2

/-- Witness for C2: a first call from the initial state with the connection
string present, followed by three repeated calls. -/
theorem c2_witness :
    (getPrismaClientCalls envBoth prismaCached 3).1 =
      List.replicate 3 (Except.ok 0) ∧
    (getPrismaClientCalls envBoth prismaCached 3).2 = prismaCached :=
  c2_prisma_singleton envBoth PrismaState.init prismaCached 0 rfl 3

/-- C3: if `MONGODB_URI` is absent, `connectMongoDB()` throws the
descriptive error before attempting any connection: no `mongoose.connect`
call happens and the module-level `isConnected` flag stays `false` — the
state is unchanged on error. -/
theorem c3_mongo_missing_env_fails_fast (env : Env)
    (driver : Except String Unit) (s : MongoState)
    (hmg : env "MONGODB_URI" = none) (hs : s.isConnected = false) :
    connectMongoDB env driver s = (.error mongoMissingEnvError, s) ∧
    (connectMongoDB env driver s).2.isConnected = false ∧
    (connectMongoDB env driver s).2.connectionsOpened =
      s.connectionsOpened ∧
    mongoMissingEnvError ≠ "" := by
  have h := connectMongoDB_noEnv env driver s hs hmg
  rw [h]
  exact ⟨rfl, hs, rfl, by decide⟩

/-- Witness for C3 at the empty environment and the initial module state. -/
theorem c3_witness :
    connectMongoDB envNone (Except.ok ()) MongoState.init =
      (.error mongoMissingEnvError, MongoState.init) ∧
    (connectMongoDB envNone (Except.ok ()) MongoState.init).2.isConnected =
      false ∧
    (connectMongoDB envNone (Except.ok ())
        MongoState.init).2.connectionsOpened =
      MongoState.init.connectionsOpened ∧
    mongoMissingEnvError ≠ "" :=
  c3_mongo_missing_env_fails_fast envNone (Except.ok ()) MongoState.init
    rfl rfl

/-- C4: after a successful connect (flag set, no intervening disconnect),
any further `connectMongoDB()` call returns immediately as a no-op: the
state is unchanged and in particular no new connection is opened. -/
theorem c4_mongo_connect_idempotent (env : Env)
    (driver : Except String Unit) (s : MongoState)
    (hs : s.isConnected = true) :
    connectMongoDB env driver s = (.ok (), s) ∧
    (connectMongoDB env driver s).2.connectionsOpened =
      s.connectionsOpened := by
  have h := connectMongoDB_connected env driver s hs
  rw [h]
  exact ⟨rfl, rfl⟩

/-- Witness for C4 at a state reached by one successful connect. -/
theorem c4_witness :
    connectMongoDB envBoth (Except.ok ()) mongoConnected =
      (.ok (), mongoConnected) ∧
    (connectMongoDB envBoth (Except.ok ())
        mongoConnected).2.connectionsOpened =
      mongoConnected.connectionsOpened :=
  c4_mongo_connect_idempotent envBoth (Except.ok ()) mongoConnected rfl

/-- C5: `disconnectPrisma()` and `disconnectMongoDB()` are idempotent
no-throw teardowns: each clears the cached handle / connected flag, is a
no-op when nothing is cached / connected, calling twice equals calling
once, and from the cleared state a subsequent `getPrismaClient()` /
`connectMongoDB()` re-establishes a fresh live handle. -/
theorem c5_disconnect_idempotent (env : Env) (u v : String)
    (s t : PrismaState) (m n : MongoState)
    (hdb : env "DATABASE_URL" = some u) (hmg : env "MONGODB_URI" = some v)
    (hs : s.prisma = none) (hm : m.isConnected = false) :
    disconnectPrisma (disconnectPrisma t) = disconnectPrisma t ∧
    disconnectMongoDB (disconnectMongoDB n) = disconnectMongoDB n ∧
    disconnectPrisma s = s ∧
    disconnectMongoDB m = m ∧
    (disconnectPrisma t).prisma = none ∧
    (disconnectMongoDB n).isConnected = false ∧
    (getPrismaClient env (disconnectPrisma t)).1 =
      .ok (disconnectPrisma t).nextHandle ∧
    (getPrismaClient env (disconnectPrisma t)).2.prisma =
      some (disconnectPrisma t).nextHandle ∧
    (connectMongoDB env (.ok ()) (disconnectMongoDB n)).1 = .ok () ∧
    (connectMongoDB env (.ok ()) (disconnectMongoDB n)).2.isConnected =
      true := by
  have hre := getPrismaClient_fresh env (disconnectPrisma t) u
    (disconnectPrisma_prisma t) hdb
  have hrm := connectMongoDB_fresh env (disconnectMongoDB n) v
    (disconnectMongoDB_flag n) hmg
  refine ⟨disconnectPrisma_none _ (disconnectPrisma_prisma t),
    disconnectMongoDB_none _ (disconnectMongoDB_flag n),
    disconnectPrisma_none s hs,
    disconnectMongoDB_none m hm,
    disconnectPrisma_prisma t,
    disconnectMongoDB_flag n,
    ?_, ?_, ?_, ?_⟩
  · rw [hre]
  · rw [hre]
  · rw [hrm]
  · rw [hrm]

/-- Witness for C5 at a populated Prisma state, a connected Mongo state, and
an environment with both connection variables set. -/
theorem c5_witness :
    disconnectPrisma (disconnectPrisma prismaCached) =
      disconnectPrisma prismaCached ∧
    disconnectMongoDB (disconnectMongoDB mongoConnected) =
      disconnectMongoDB mongoConnected ∧
    disconnectPrisma PrismaState.init = PrismaState.init ∧
    disconnectMongoDB MongoState.init = MongoState.init ∧
    (disconnectPrisma prismaCached).prisma = none ∧
    (disconnectMongoDB mongoConnected).isConnected = false ∧
    (getPrismaClient envBoth (disconnectPrisma prismaCached)).1 =
      .ok (disconnectPrisma prismaCached).nextHandle ∧
    (getPrismaClient envBoth (disconnectPrisma prismaCached)).2.prisma =
      some (disconnectPrisma prismaCached).nextHandle ∧
    (connectMongoDB envBoth (.ok ())
        (disconnectMongoDB mongoConnected)).1 = .ok () ∧
    (connectMongoDB envBoth (.ok ())
        (disconnectMongoDB mongoConnected)).2.isConnected = true :=
  c5_disconnect_idempotent envBoth "db://localhost" "db://localhost"
    PrismaState.init prismaCached MongoState.init mongoConnected
    rfl rfl rfl rfl

/-- C6 counterexample: after a successful first connect, invoking the
registered interrupt-signal cleanup hook closes the connection but emits no
process-termination effect — the `cleanup` closure in the source contains
no `process.exit` call, refuting the claim that the hook terminates the
process. -/
theorem c6_counterexample :
    (mongoCleanup
        (connectMongoDB envBoth (Except.ok ()) MongoState.init).2).2 =
      [ProcEffect.closeConnection] ∧
    ProcEffect.processExit ∉
      (mongoCleanup
        (connectMongoDB envBoth (Except.ok ()) MongoState.init).2).2 := by
  constructor
  · rfl
  · decide

/-- C6 (amended): each successful `connectMongoDB()` registers exactly one
shutdown hook on the interrupt signal (and one on the terminate signal),
and when that hook is invoked while connected it closes the MongoDB
connection and clears the connected flag — but it does not terminate the
process. -/
theorem c6_mongo_shutdown_hook (env : Env) (v : String) (s : MongoState)
    (hmg : env "MONGODB_URI" = some v) (hs : s.isConnected = false) :
    (connectMongoDB env (.ok ()) s).2.sigintHooks = s.sigintHooks + 1 ∧
    (connectMongoDB env (.ok ()) s).2.sigtermHooks = s.sigtermHooks + 1 ∧
    (mongoCleanup (connectMongoDB env (.ok ()) s).2).1.isConnected =
      false ∧
    (mongoCleanup (connectMongoDB env (.ok ()) s).2).2 =
      [ProcEffect.closeConnection] ∧
    ProcEffect.processExit ∉
      (mongoCleanup (connectMongoDB env (.ok ()) s).2).2 := by
  have h := connectMongoDB_fresh env s v hs hmg
  rw [h]
  refine ⟨rfl, rfl, rfl, rfl, ?_⟩
  intro hmem
  simp [mongoCleanup] at hmem

/-- Witness for the amended C6 at the initial state: exactly one interrupt
hook is registered and invoking it closes without exiting. -/
theorem c6_witness :
    (connectMongoDB envBoth (.ok ()) MongoState.init).2.sigintHooks =
      MongoState.init.sigintHooks + 1 ∧
    (connectMongoDB envBoth (.ok ()) MongoState.init).2.sigtermHooks =
      MongoState.init.sigtermHooks + 1 ∧
    (mongoCleanup
        (connectMongoDB envBoth (.ok ())
          MongoState.init).2).1.isConnected = false ∧
    (mongoCleanup (connectMongoDB envBoth (.ok ()) MongoState.init).2).2 =
      [ProcEffect.closeConnection] ∧
    ProcEffect.processExit ∉
      (mongoCleanup
        (connectMongoDB envBoth (.ok ()) MongoState.init).2).2 :=
  c6_mongo_shutdown_hook envBoth "db://localhost" MongoState.init rfl rfl

/-- C7: the three declared TTL indexes carry exactly the documented
`expireAfterSeconds` values — `PageView` expires 7776000 s (90 days) after
`timestamp`, `AuditLog` 63072000 s (2 years) after `timestamp`, and
`Notification` expires at the stored `expiresAt` value itself
(`expireAfterSeconds 0`), so a notification without `expiresAt` never
expires. -/
theorem c7_ttl_indexes :
    ttlIndexes pageViewSchemaIndexes =
      [⟨[("timestamp", 1)], some 7776000⟩] ∧
    ttlIndexes auditLogSchemaIndexes =
      [⟨[("timestamp", 1)], some 63072000⟩] ∧
    ttlIndexes notificationSchemaIndexes =
      [⟨[("expiresAt", 1)], some 0⟩] ∧
    (∀ now : Nat,
      ttlExpired ⟨[("expiresAt", 1)], some 0⟩ none now = false) ∧
    (∀ t now : Nat,
      ttlExpired ⟨[("expiresAt", 1)], some 0⟩ (some t) now = true ↔
        t ≤ now) := by
  refine ⟨by decide, by decide, by decide, fun now => rfl, fun t now => ?_⟩
  simp [ttlExpired]

/-- C8: every declared unique constraint rejects a duplicate insert: with
an existing row in the table, inserting a second `users` row with the same
`email` or the same `username` fails, inserting a second `posts` row with
the same `slug` fails, and inserting a second `likes` / `bookmarks` row
with the same `(userId, postId)` pair fails. -/
theorem c8_unique_constraints (db : DB) (u u' : User) (p p' : Post)
    (l l' : Like) (b b' : Bookmark)
    (hu : u ∈ db.users) (hp : p ∈ db.posts) (hl : l ∈ db.likes)
    (hb : b ∈ db.bookmarks) :
    (u'.email = u.email → insertUser db u' = none) ∧
    (u'.username = u.username → insertUser db u' = none) ∧
    (p'.slug = p.slug → insertPost db p' = none) ∧
    (l'.userId = l.userId → l'.postId = l.postId →
      insertLike db l' = none) ∧
    (b'.userId = b.userId → b'.postId = b.postId →
      insertBookmark db b' = none) := by
  refine ⟨?_, ?_, ?_, ?_, ?_⟩
  · intro he
    have hd : db.users.any (fun x => x.id == u'.id || x.email == u'.email ||
        x.username == u'.username) = true :=
      List.any_eq_true.2 ⟨u, hu, by simp [he]⟩
    simp [insertUser, hd]
  · intro he
    have hd : db.users.any (fun x => x.id == u'.id || x.email == u'.email ||
        x.username == u'.username) = true :=
      List.any_eq_true.2 ⟨u, hu, by simp [he]⟩
    simp [insertUser, hd]
  · intro he
    have hd : db.posts.any (fun q => q.id == p'.id || q.slug == p'.slug) =
        true :=
      List.any_eq_true.2 ⟨p, hp, by simp [he]⟩
    simp [insertPost, hd]
  · intro he1 he2
    have hd : db.likes.any (fun x => x.id == l'.id ||
        (x.userId == l'.userId && x.postId == l'.postId)) = true :=
      List.any_eq_true.2 ⟨l, hl, by simp [he1, he2]⟩
    simp [insertLike, hd]
  · intro he1 he2
    have hd : db.bookmarks.any (fun x => x.id == b'.id ||
        (x.userId == b'.userId && x.postId == b'.postId)) = true :=
      List.any_eq_true.2 ⟨b, hb, by simp [he1, he2]⟩
    simp [insertBookmark, hd]

/-- Witness for C8 on a one-row-per-table database: each duplicate insert
is rejected. -/
theorem c8_witness :
    insertUser dbEx userDupEmail = none ∧
    insertUser dbEx userDupUsername = none ∧
    insertPost dbEx postDupSlug = none ∧
    insertLike dbEx likeDup = none ∧
    insertBookmark dbEx bookmarkDup = none := by
  obtain ⟨h1, h2, h3, h4, h5⟩ :=
    c8_unique_constraints dbEx userA userDupEmail postA postDupSlug likeA
      likeDup bookmarkA bookmarkDup (by simp [dbEx]) (by simp [dbEx])
      (by simp [dbEx]) (by simp [dbEx])
  refine ⟨h1 rfl, ?_, h3 rfl, h4 rfl rfl, h5 rfl rfl⟩
  exact
    (c8_unique_constraints dbEx userA userDupUsername postA postDupSlug
      likeA likeDup bookmarkA bookmarkDup (by simp [dbEx]) (by simp [dbEx])
      (by simp [dbEx]) (by simp [dbEx])).2.1 rfl

/-- Every element of a list filtered by `p` satisfies `p`. -/
lemma all_filter_self {α : Type} (p : α → Bool) (l : List α) :
    (l.filter p).all p = true := by
  rw [List.all_eq_true]
  intro x hx
  exact (List.mem_filter.1 hx).2

/-- The `SET NULL` adjustment never changes a comment's `postId`. -/
lemma adjustParent_postId (r : List String) (c : Comment) :
    (adjustParent r c).postId = c.postId := by
  unfold adjustParent
  cases hp : c.parentId with
  | none => rfl
  | some pa =>
    dsimp only
    split <;> rfl

/-- C9: deleting a `Post` cascades to all of its `comments`, `likes`,
`bookmarks`, `post_categories` and `post_tags` rows (none referencing the
deleted post survives), while deleting a `User` deletes only its `profiles`
and `sessions` rows and leaves every other table — in particular authored
`posts` and `comments` — intact. -/
theorem c9_cascade_behavior (db : DB) (p u : String) :
    ((deletePost db p).posts.all (fun q => q.id != p)) = true ∧
    ((deletePost db p).comments.all (fun c => c.postId != p)) = true ∧
    ((deletePost db p).likes.all (fun l => l.postId != p)) = true ∧
    ((deletePost db p).bookmarks.all (fun b => b.postId != p)) = true ∧
    ((deletePost db p).postCategories.all (fun j => j.postId != p)) =
      true ∧
    ((deletePost db p).postTags.all (fun j => j.postId != p)) = true ∧
    (deleteUser db u).posts = db.posts ∧
    (deleteUser db u).comments = db.comments ∧
    ((deleteUser db u).profiles.all (fun pr => pr.userId != u)) = true ∧
    ((deleteUser db u).sessions.all (fun se => se.userId != u)) = true ∧
    (deleteUser db u).likes = db.likes ∧
    (deleteUser db u).bookmarks = db.bookmarks ∧
    (deleteUser db u).postCategories = db.postCategories ∧
    (deleteUser db u).postTags = db.postTags ∧
    (deleteUser db u).categories = db.categories ∧
    (deleteUser db u).tags = db.tags ∧
    (deleteUser db u).media = db.media ∧
    (deleteUser db u).mediaVariants = db.mediaVariants := by
  refine ⟨all_filter_self _ _, ?_, all_filter_self _ _,
    all_filter_self _ _, all_filter_self _ _, all_filter_self _ _,
    rfl, rfl, all_filter_self _ _, all_filter_self _ _,
    rfl, rfl, rfl, rfl, rfl, rfl, rfl, rfl⟩
  rw [List.all_eq_true]
  intro c hc
  obtain ⟨c₀, hc₀, rfl⟩ := List.mem_map.1 hc
  rw [adjustParent_postId]
  exact (List.mem_filter.1 hc₀).2

/-- Each disconnect-reacquire cycle on the Prisma state registers exactly
one more handler set. -/
lemma prismaCycles_handlerSets (env : Env) (u : String)
    (hdb : env "DATABASE_URL" = some u) (n : Nat) (s : PrismaState) :
    (prismaCycles env s n).handlerSets = s.handlerSets + n := by
  induction n generalizing s with
  | zero => rfl
  | succ k ih =>
    unfold prismaCycles
    rw [getPrismaClient_fresh env (disconnectPrisma s) u
      (disconnectPrisma_prisma s) hdb, ih]
    dsimp only
    rw [disconnectPrisma_handlerSets]
    omega

/-- Each disconnect-reconnect cycle on the Mongo state registers exactly
one more `error` listener, `disconnected` listener, `SIGINT` hook and
`SIGTERM` hook. -/
lemma mongoCycles_counters (env : Env) (v : String)
    (hmg : env "MONGODB_URI" = some v) (n : Nat) (s : MongoState) :
    (mongoCycles env s n).errorListeners = s.errorListeners + n ∧
    (mongoCycles env s n).disconnectedListeners =
      s.disconnectedListeners + n ∧
    (mongoCycles env s n).sigintHooks = s.sigintHooks + n ∧
    (mongoCycles env s n).sigtermHooks = s.sigtermHooks + n := by
  induction n generalizing s with
  | zero => exact ⟨rfl, rfl, rfl, rfl⟩
  | succ k ih =>
    unfold mongoCycles
    rw [connectMongoDB_fresh env (disconnectMongoDB s) v
      (disconnectMongoDB_flag s) hmg]
    obtain ⟨i1, i2, i3, i4⟩ := ih (⟨true,
      (disconnectMongoDB s).connectionsOpened + 1,
      (disconnectMongoDB s).errorListeners + 1,
      (disconnectMongoDB s).disconnectedListeners + 1,
      (disconnectMongoDB s).sigintHooks + 1,
      (disconnectMongoDB s).sigtermHooks + 1⟩)
    obtain ⟨d1, d2, d3, d4, d5⟩ := disconnectMongoDB_counters s
    refine ⟨?_, ?_, ?_, ?_⟩
    · rw [i1]; dsimp only; rw [d2]; omega
    · rw [i2]; dsimp only; rw [d3]; omega
    · rw [i3]; dsimp only; rw [d4]; omega
    · rw [i4]; dsimp only; rw [d5]; omega

/-- C10: shutdown hooks accumulate across disconnect/reconnect cycles and
are never deregistered: starting from the initial module states, a first
acquire/connect followed by `n` disconnect-reconnect cycles leaves `n + 1`
`beforeExit`/`SIGINT`/`SIGTERM` handler sets installed on the Prisma side
and `n + 1` `error` listeners, `disconnected` listeners, `SIGINT` hooks and
`SIGTERM` hooks installed on the Mongo side, while no disconnect or cleanup
path ever removes a registered handler. -/
theorem c10_handler_accumulation (env : Env) (u v : String)
    (s : PrismaState) (m : MongoState) (n : Nat)
    (hdb : env "DATABASE_URL" = some u)
    (hmg : env "MONGODB_URI" = some v) :
    (prismaCycles env (getPrismaClient env PrismaState.init).2
        n).handlerSets = n + 1 ∧
    (mongoCycles env (connectMongoDB env (.ok ()) MongoState.init).2
        n).errorListeners = n + 1 ∧
    (mongoCycles env (connectMongoDB env (.ok ()) MongoState.init).2
        n).disconnectedListeners = n + 1 ∧
    (mongoCycles env (connectMongoDB env (.ok ()) MongoState.init).2
        n).sigintHooks = n + 1 ∧
    (mongoCycles env (connectMongoDB env (.ok ()) MongoState.init).2
        n).sigtermHooks = n + 1 ∧
    (disconnectPrisma s).handlerSets = s.handlerSets ∧
    (disconnectMongoDB m).sigintHooks = m.sigintHooks ∧
    (disconnectMongoDB m).sigtermHooks = m.sigtermHooks ∧
    (disconnectMongoDB m).errorListeners = m.errorListeners ∧
    (disconnectMongoDB m).disconnectedListeners =
      m.disconnectedListeners ∧
    (mongoCleanup m).1.sigintHooks = m.sigintHooks ∧
    (mongoCleanup m).1.sigtermHooks = m.sigtermHooks := by
  have hp0 := getPrismaClient_fresh env PrismaState.init u rfl hdb
  have hm0 := connectMongoDB_fresh env MongoState.init v rfl hmg
  obtain ⟨d1, d2, d3, d4, d5⟩ := disconnectMongoDB_counters m
  have hcl : (mongoCleanup m).1.sigintHooks = m.sigintHooks ∧
      (mongoCleanup m).1.sigtermHooks = m.sigtermHooks := by
    unfold mongoCleanup
    split <;> exact ⟨rfl, rfl⟩
  obtain ⟨m1, m2, m3, m4⟩ := mongoCycles_counters env v hmg n
    (connectMongoDB env (.ok ()) MongoState.init).2
  refine ⟨?_, ?_, ?_, ?_, ?_, disconnectPrisma_handlerSets s, d4, d5, d2,
    d3, hcl.1, hcl.2⟩
  · rw [prismaCycles_handlerSets env u hdb n, hp0]
    dsimp only [PrismaState.init]
    omega
  · rw [m1, hm0]
    dsimp only [MongoState.init]
    omega
  · rw [m2, hm0]
    dsimp only [MongoState.init]
    omega
  · rw [m3, hm0]
    dsimp only [MongoState.init]
    omega
  · rw [m4, hm0]
    dsimp only [MongoState.init]
    omega

/-- Witness for C10 after two disconnect-reconnect cycles: three handler
sets / listener sets are installed on each side, and disconnects and
cleanup remove none. -/
theorem c10_witness :
    (prismaCycles envBoth (getPrismaClient envBoth PrismaState.init).2
        2).handlerSets = 2 + 1 ∧
    (mongoCycles envBoth (connectMongoDB envBoth (.ok ()) MongoState.init).2
        2).errorListeners = 2 + 1 ∧
    (mongoCycles envBoth (connectMongoDB envBoth (.ok ()) MongoState.init).2
        2).disconnectedListeners = 2 + 1 ∧
    (mongoCycles envBoth (connectMongoDB envBoth (.ok ()) MongoState.init).2
        2).sigintHooks = 2 + 1 ∧
    (mongoCycles envBoth (connectMongoDB envBoth (.ok ()) MongoState.init).2
        2).sigtermHooks = 2 + 1 ∧
    (disconnectPrisma prismaCached).handlerSets =
      prismaCached.handlerSets ∧
    (disconnectMongoDB mongoConnected).sigintHooks =
      mongoConnected.sigintHooks ∧
    (disconnectMongoDB mongoConnected).sigtermHooks =
      mongoConnected.sigtermHooks ∧
    (disconnectMongoDB mongoConnected).errorListeners =
      mongoConnected.errorListeners ∧
    (disconnectMongoDB mongoConnected).disconnectedListeners =
      mongoConnected.disconnectedListeners ∧
    (mongoCleanup mongoConnected).1.sigintHooks =
      mongoConnected.sigintHooks ∧
    (mongoCleanup mongoConnected).1.sigtermHooks =
      mongoConnected.sigtermHooks :=
  c10_handler_accumulation envBoth "db://localhost" "db://localhost"
    prismaCached mongoConnected 2 rfl rfl

end BlogsDb
